import Mathlib

/-!
Shallow embedding of the playback-synchronization core of `player.py`
(the `Timer` stopwatch and the `Player` state machine), together with
theorems checking the specification's claims against it.

Modelling conventions:
* Python floats are modelled as rationals (`ℚ`); wall-clock readings
  (`time.time()`) are passed in explicitly as a `now : ℚ` argument.
* Python exceptions are modelled with `Except String` (the raising
  function returns `.error msg`) or, for in-place setters, as a
  `state × Option String` pair whose second component is the raised
  message, the first component being the state after the call.
* Python attribute slots that may not exist yet (`new_audioframe_available`,
  which `play()` only creates when `audioformat` is set) are modelled as
  `Option`; reading the missing attribute is an `AttributeError`.
-/

set_option autoImplicit false

namespace MediaPlayer

/-! ### Status constants (player.py lines 30-40) -/

def UNINITIALIZED : Nat := 0
def READY : Nat := 1
def PAUSED : Nat := 2
def PLAYING : Nat := 3
def EOS : Nat := 4
def RUNNING : Nat := 5
def STOPPED : Nat := 6

/-- Python `int()` applied to a float: truncation toward zero. -/
def pyint (q : ℚ) : ℤ := if 0 ≤ q then ⌊q⌋ else -⌊-q⌋

/-! ### Timer (player.py lines 42-164) -/

/-- State of a `Timer` object.  `fps` and `max_duration` model the private
slots `__fps` / `__max_duration` (`none` = Python `None`).
`interval_start` is the wall-clock timestamp recorded at the latest
resume; in Python the attribute only exists once `start()`/`pause()` has
written it, and it is only ever read in states where it was written, so a
plain rational (defaulting to 0) is faithful. -/
structure Timer where
  status : Nat := PAUSED
  fps : Option ℚ := none
  max_duration : Option ℚ := none
  previous_intervals : List ℚ := []
  current_interval_duration : ℚ := 0
  interval_start : ℚ := 0
deriving DecidableEq, Repr

/-- `Timer.reset` (lines 54-57): empty the interval history. -/
def Timer.reset (t : Timer) : Timer :=
  { t with previous_intervals := [], current_interval_duration := 0 }

/-- A fresh `Timer()` with no fps / max_duration (constructor, lines 47-52). -/
def Timer.init : Timer := {}

/-- The `fps` setter (lines 125-137).  The Python `type(value) == float`
check has no counterpart here (all numbers are rationals); the range check
raises `ValueError` before any assignment, so on error the timer is
returned unchanged. -/
def Timer.set_fps (t : Timer) (value : Option ℚ) : Timer × Option String :=
  match value with
  | none => ({ t with fps := none }, none)
  | some v =>
    if v < 1 then (t, some "fps needs to be greater than 1.0")
    else ({ t with fps := some v }, none)

/-- The `max_duration` setter (lines 145-157), same shape as `set_fps`. -/
def Timer.set_max_duration (t : Timer) (value : Option ℚ) : Timer × Option String :=
  match value with
  | none => ({ t with max_duration := none }, none)
  | some v =>
    if v < 1 then (t, some "max_duration needs to be greater than 1.0")
    else ({ t with max_duration := some v }, none)

/-- `Timer.time` (lines 100-103): accumulated history plus live counter. -/
def Timer.time (t : Timer) : ℚ :=
  t.previous_intervals.sum + t.current_interval_duration

/-- `Timer.pause` (lines 59-68), with the wall clock passed in as `now`. -/
def Timer.pause (t : Timer) (now : ℚ) : Timer :=
  if t.status = RUNNING then
    { t with status := PAUSED,
             previous_intervals := t.previous_intervals ++ [now - t.interval_start],
             current_interval_duration := 0 }
  else if t.status = PAUSED then
    { t with interval_start := now, status := RUNNING }
  else t

/-- `Timer.stop` (lines 95-98): set `STOPPED` and reset. -/
def Timer.stop (t : Timer) : Timer :=
  Timer.reset { t with status := STOPPED }

/-- `Timer.current_frame` (lines 105-110): `int(fps * time)`, raising when
`__fps` is falsy (Python `not self.__fps` is true for both `None` and `0.0`). -/
def Timer.current_frame (t : Timer) : Except String ℤ :=
  match t.fps with
  | none => .error "fps not set so current frame number cannot be calculated"
  | some f =>
    if f = 0 then .error "fps not set so current frame number cannot be calculated"
    else .ok (pyint (f * t.time))

/-- `Timer.frame_interval` (lines 112-118): `1.0 / fps`, same falsy guard. -/
def Timer.frame_interval (t : Timer) : Except String ℚ :=
  match t.fps with
  | none => .error "fps not set so current frame interval cannot be calculated"
  | some f =>
    if f = 0 then .error "fps not set so current frame interval cannot be calculated"
    else .ok (1 / f)

/-- The truthy exceed-condition of line 89:
`self.max_duration and self.time > self.max_duration`. -/
def Timer.maxDurationExceeded (t : Timer) : Bool :=
  match t.max_duration with
  | none => false
  | some m => decide (m ≠ 0) && decide (m < t.time)

/-- One iteration of the polling loop body in `Timer.__run` (lines 84-93),
entered with the loop guard `status != STOPPED` already checked.  When
`RUNNING` it refreshes `current_interval_duration` from the wall clock.
Lines 89-90 read
`if self.max_duration and self.time > self.max_duration: self.status == STOPPED`;
the body is a comparison expression (`==`), not an assignment, so it is
evaluated and discarded and the state is not changed by it. -/
def Timer.runTick (t : Timer) (now : ℚ) : Timer :=
  if t.status = RUNNING then
    { t with current_interval_duration := now - t.interval_start }
  else t

/-- `Timer.start` (lines 70-79): when no timekeeping thread is alive,
set `RUNNING`, reset, and launch the thread; otherwise a printed no-op. -/
def Timer.start (t : Timer) (threadAlive : Bool) : Timer :=
  if threadAlive then t
  else Timer.reset { t with status := RUNNING }

/-! ### Player (player.py lines 167-416) -/

/-- The audio track of a loaded clip, as exposed by `clip.audio`
(`none` models a clip whose `audio` attribute is `None`). -/
structure AudioTrack where
  nchannels : Nat
  fps : ℚ
deriving DecidableEq, Repr

/-- The information read from a `VideoFileClip` by the `Player`. -/
structure Clip where
  duration : ℚ
  fps : ℚ
  audio : Option AudioTrack
deriving DecidableEq, Repr

/-- The `audioformat` dictionary built in `load_video` (lines 249-254). -/
structure AudioFormat where
  nbytes : Nat
  nchannels : Nat
  fps : ℚ
  chunkduration : ℚ
deriving DecidableEq, Repr

/-- State of a `Player` object.  `new_audioframe_available` models the
`threading.Event` slot: `none` means the attribute was never created (so
touching it raises `AttributeError`), `some b` an event whose flag is `b`.
`current_videoframe` records the clock time at which the last video frame
was pulled via `clip.get_frame` (the pixel data itself is opaque here). -/
structure Player where
  clock : Timer
  status : Nat
  clip : Option Clip
  loaded_file : Option String
  fps : Option ℚ
  duration : Option ℚ
  audioformat : Option AudioFormat
  last_frame_no : ℤ
  current_time : ℚ
  next_audio_refresh_t : ℚ
  new_audioframe_available : Option Bool
  current_videoframe : Option ℚ
deriving DecidableEq, Repr

/-- A `Player()` constructed without a video file: `load_video(None, ...)`
returns `False`, so `reset()` runs (lines 233-241), leaving everything
unloaded and the status `UNINITIALIZED`. -/
def Player.initial : Player :=
  { clock := Timer.init, status := UNINITIALIZED, clip := none,
    loaded_file := none, fps := none, duration := none, audioformat := none,
    last_frame_no := 0, current_time := 0, next_audio_refresh_t := 0,
    new_audioframe_available := none, current_videoframe := none }

/-- `Player.load_video` (lines 243-280).  The file system is abstracted by
`isfile`, the decoder by `openClip` (what `VideoFileClip` exposes for an
existing file).  Returns the player state after the call together with
`.ok b` (Python return value) or `.error msg` (raised exception).  The
mutation order follows the source: clip, audioformat, loaded_file,
duration, clock.max_duration (validated setter), fps, clock.fps
(validated setter), status. -/
def Player.load_video (p : Player) (videofile : Option String)
    (play_audio : Bool) (isfile : String → Bool) (openClip : String → Clip) :
    Player × Except String Bool :=
  match videofile with
  | none => (p, .ok false)
  | some f =>
    if isfile f then
      let clip := openClip f
      let p1 := { p with clip := some clip }
      let p2 :=
        match play_audio, clip.audio with
        | true, some a =>
          let fmt : AudioFormat :=
            { nbytes := 2, nchannels := a.nchannels, fps := a.fps,
              chunkduration := 1 / clip.fps }
          { p1 with audioformat := some fmt }
        | _, _ => { p1 with audioformat := none }
      let p3 := { p2 with loaded_file := some f, duration := some clip.duration }
      match p3.clock.set_max_duration (some clip.duration) with
      | (c1, some msg) => ({ p3 with clock := c1 }, .error msg)
      | (c1, none) =>
        let p4 := { p3 with clock := c1, fps := some clip.fps }
        match p4.clock.set_fps (some clip.fps) with
        | (c2, some msg) => ({ p4 with clock := c2 }, .error msg)
        | (c2, none) => ({ p4 with clock := c2, status := READY }, .ok true)
    else
      (p, .error ("File not found: " ++ f))

/-- Outcome of a `Player.play()` call. -/
inductive PlayOutcome
  /-- `RuntimeError` raised, or an exception from `frame_interval`. -/
  | raised (msg : String)
  /-- Printed "End of stream has been reached" and returned. -/
  | eosNoop
  /-- Printed "Video already started" and returned. -/
  | alreadyPlayingNoop
  /-- Threads launched; `audioStarted` says whether the audio-render
  thread was started alongside the render loop. -/
  | started (audioStarted : Bool)
  /-- Printed "Rendering thread already running!" (stale live render loop). -/
  | threadAliveNoop
deriving DecidableEq, Repr

/-- `Player.play` (lines 282-319).  `renderloopAlive` models
`hasattr(self, "renderloop") and self.renderloop.isAlive()`.  Note that the
source sets `status = PLAYING` and the timing variables before the thread
guard, so those mutations happen even on the `threadAliveNoop` path. -/
def Player.play (p : Player) (renderloopAlive : Bool) : Player × PlayOutcome :=
  if p.status = UNINITIALIZED ∨ p.clip = none then
    (p, .raised "Player uninitialized or no file loaded")
  else if p.status = EOS then
    (p, .eosNoop)
  else if p.status = PLAYING ∨ p.status = PAUSED then
    (p, .alreadyPlayingNoop)
  else
    let p1 := if p.status = READY then { p with status := PLAYING } else p
    let p2 := { p1 with last_frame_no := 0, current_time := p1.clock.time }
    match p2.clock.frame_interval with
    | .error msg => (p2, .raised msg)
    | .ok fi =>
      let p3 := { p2 with next_audio_refresh_t := p2.current_time + fi }
      if renderloopAlive then (p3, .threadAliveNoop)
      else if p3.audioformat.isSome then
        ({ p3 with new_audioframe_available := some false }, .started true)
      else (p3, .started false)

/-- `threading.Event.set()` on the `new_audioframe_available` slot: raises
`AttributeError` when `play()` never created the event. -/
def eventSet : Option Bool → Except String (Option Bool)
  | none => .error "AttributeError: Player object has no attribute new_audioframe_available"
  | some _ => .ok (some true)

/-- `Player.__render_videoframe` (lines 360-370): pull the frame at the
current clock time from the clip (recorded here by its timestamp), hand it
to the callback, and store it. -/
def Player.render_videoframe (p : Player) : Except String Player :=
  match p.clip with
  | none => .error "AttributeError: NoneType object has no attribute get_frame"
  | some _ => .ok { p with current_videoframe := some p.clock.time }

/-- How one iteration of the `__render` main loop ended. -/
inductive RenderStep
  /-- Fell through to the `time.sleep(0.01)` and re-polls. -/
  | continued
  /-- `clock.time > duration`: status set to `EOS`, loop broken. -/
  | brokeEos
deriving DecidableEq, Repr

/-- One iteration of the main rendering loop of `Player.__render`
(lines 333-350), entered with the loop guard
`status in [PLAYING, PAUSED]` already checked.  Statement order follows
the source: read `clock.current_frame`; end-of-clip check; on a new frame
number set `current_time`, `next_audio_refresh_t`, call
`new_audioframe_available.set()` (an `AttributeError` when the event was
never created), then `__render_videoframe()`; finally update
`last_frame_no`. -/
def Player.renderStep (p : Player) : Except String (Player × RenderStep) :=
  match p.clock.current_frame with
  | .error e => .error e
  | .ok current_frame_no =>
    match p.duration with
    | none => .error "TypeError: comparison of float and NoneType"
    | some d =>
      if p.clock.time > d then
        .ok ({ p with status := EOS }, .brokeEos)
      else if p.last_frame_no ≠ current_frame_no then
        match p.clock.frame_interval with
        | .error e => .error e
        | .ok fi =>
          match eventSet p.new_audioframe_available with
          | .error e => .error e
          | .ok ev =>
            match Player.render_videoframe
                { p with current_time := p.clock.time,
                         next_audio_refresh_t := p.clock.time + fi,
                         new_audioframe_available := ev } with
            | .error e => .error e
            | .ok p1 => .ok ({ p1 with last_frame_no := current_frame_no }, .continued)
      else
        .ok ({ p with last_frame_no := current_frame_no }, .continued)

/-- The epilogue of `Player.__render` after the loop exits (lines 352-357):
stop the clock, then set the event one final time so the audio thread is
not left waiting forever — again an `AttributeError` when the event was
never created. -/
def Player.renderExit (p : Player) : Except String Player :=
  match eventSet p.new_audioframe_available with
  | .error e => .error e
  | .ok ev =>
    .ok { p with clock := p.clock.stop, new_audioframe_available := ev }

/-- `Player.pause` (lines 402-410): toggle between `PLAYING` and `PAUSED`,
driving the clock in lockstep; no-op in every other state. -/
def Player.pause (p : Player) (now : ℚ) : Player :=
  if p.status = PAUSED then
    { p with status := PLAYING, clock := p.clock.pause now }
  else if p.status = PLAYING then
    { p with status := PAUSED, clock := p.clock.pause now }
  else p

/-- `Player.stop` (lines 412-416): stop the clock, set status `READY`.
No guard at all — it runs from any state. -/
def Player.stop (p : Player) : Player :=
  { p with clock := p.clock.stop, status := READY }

/-! ### Concrete fixtures used by the theorems -/

/-- A clip with no audio track. -/
def noAudioClip : Clip := { duration := 10, fps := 25, audio := none }

/-- A clip with a stereo 44100 Hz audio track. -/
def stereoClip : Clip :=
  { duration := 10, fps := 25, audio := some { nchannels := 2, fps := 44100 } }

/-- A running timer with `max_duration = 1` whose accumulated time is 2,
i.e. already past its maximum duration. -/
def runawayTimer : Timer :=
  { status := RUNNING, fps := some 25, max_duration := some 1,
    previous_intervals := [2], current_interval_duration := 0,
    interval_start := 0 }

/-- A running timer used as a concrete input for the `pause` theorems. -/
def pausableTimer : Timer :=
  { status := RUNNING, fps := some 25, max_duration := none,
    previous_intervals := [1], current_interval_duration := 2,
    interval_start := 3 }

/-- The player obtained by loading a file without an audio track on a
fresh player (with `play_audio = True`). -/
def readyVideoOnlyPlayer : Player :=
  (Player.initial.load_video (some "video.mp4") true (fun _ => true)
    (fun _ => noAudioClip)).1

/-- `readyVideoOnlyPlayer` after `play()` has launched the render loop. -/
def videoOnlyPlaying : Player := (readyVideoOnlyPlayer.play false).1

/-- `videoOnlyPlaying` once `__render` has started the clock, the
timekeeping thread has recorded its `interval_start`, and one tick at
wall-clock 1/10 s has elapsed — playback time 0.1 s, current frame 2. -/
def videoOnlyAdvanced : Player :=
  { videoOnlyPlaying with
      clock := Timer.runTick
        { (videoOnlyPlaying.clock.start false) with interval_start := 0 }
        (1 / 10) }

/-! ### Claim theorems -/

/-- Claim C1: the polling tick of `Timer.__run` was meant to stop the
clock once `time > max_duration`, but line 90 (`self.status == STOPPED`)
is a comparison, not an assignment: the tick never changes `status` at
all, and a concrete running timer past its maximum duration stays
`RUNNING` through a tick. -/
theorem timer_maxduration_check_is_inert :
    (∀ (t : Timer) (now : ℚ), (t.runTick now).status = t.status) ∧
    runawayTimer.maxDurationExceeded = true ∧
    (runawayTimer.max_duration = some 1 ∧ 1 < (runawayTimer.runTick 2).time) ∧
    (runawayTimer.runTick 2).status = RUNNING ∧
    (runawayTimer.runTick 2).status ≠ STOPPED := by
  refine ⟨fun t now => ?_, ?_, ⟨rfl, ?_⟩, rfl, by decide⟩
  · unfold Timer.runTick
    split <;> rfl
  · simp [Timer.maxDurationExceeded, runawayTimer, Timer.time]
  · show (1 : ℚ) < Timer.time _
    simp [Timer.runTick, runawayTimer, Timer.time]
    norm_num

/-- `pyint` agrees with the floor on non-negative rationals. -/
theorem pyint_eq_floor {q : ℚ} (h : 0 ≤ q) : pyint q = ⌊q⌋ := by
  simp [pyint, h]

/-- Claim C3: with a valid fps `f ≥ 1` set and non-negative elapsed time,
`current_frame` is `⌊f · time⌋` and `frame_interval` is `1 / f`; with no
fps set, both queries fail with the unset-rate error. -/
theorem timer_frame_queries (t u : Timer) (f : ℚ)
    (hf : t.fps = some f) (h1 : 1 ≤ f) (ht : 0 ≤ t.time)
    (hu : u.fps = none) :
    t.current_frame = .ok ⌊f * t.time⌋ ∧
    t.frame_interval = .ok (1 / f) ∧
    (∃ e, u.current_frame = .error e) ∧
    (∃ e, u.frame_interval = .error e) := by
  have hf0 : f ≠ 0 := by intro h; rw [h] at h1; norm_num at h1
  have hnn : (0 : ℚ) ≤ f * t.time :=
    mul_nonneg (le_trans zero_le_one h1) ht
  refine ⟨?_, ?_, ?_, ?_⟩
  · simp [Timer.current_frame, hf, hf0, pyint_eq_floor hnn]
  · simp [Timer.frame_interval, hf, hf0]
  · exact ⟨"fps not set so current frame number cannot be calculated",
      by simp [Timer.current_frame, hu]⟩
  · exact ⟨"fps not set so current frame interval cannot be calculated",
      by simp [Timer.frame_interval, hu]⟩

/-- Claim C3, witness: a concrete timer with fps 25 and time 1/5 yields
frame ⌊25 · 1/5⌋ = 5 and interval 1/25; a fresh timer's queries fail. -/
theorem timer_frame_queries_witness :
    Timer.current_frame { Timer.init with fps := some 25, current_interval_duration := 1/5 } = .ok 5 ∧
    Timer.frame_interval { Timer.init with fps := some 25, current_interval_duration := 1/5 } = .ok (1/25) ∧
    (∃ e, Timer.current_frame Timer.init = .error e) ∧
    (∃ e, Timer.frame_interval Timer.init = .error e) := by
  have h := timer_frame_queries
    { Timer.init with fps := some 25, current_interval_duration := 1/5 }
    Timer.init 25 rfl (by norm_num)
    (by simp [Timer.time, Timer.init]) rfl
  refine ⟨?_, h.2.1, h.2.2.1, h.2.2.2⟩
  rw [h.1]
  have harg : (25 : ℚ) * Timer.time
      { Timer.init with fps := some 25, current_interval_duration := 1/5 } = 5 := by
    simp [Timer.time, Timer.init]
    norm_num
  rw [harg]
  norm_num

/-- Claim C4: for any value `v < 1`, both setters raise the range error
and leave the stored value (indeed the whole timer) unchanged, while the
boundary value 1 is accepted by both. -/
theorem timer_setter_range_validation (t : Timer) (v : ℚ) (hv : v < 1) :
    t.set_fps (some v) = (t, some "fps needs to be greater than 1.0") ∧
    t.set_max_duration (some v) = (t, some "max_duration needs to be greater than 1.0") ∧
    t.set_fps (some 1) = ({ t with fps := some 1 }, none) ∧
    t.set_max_duration (some 1) = ({ t with max_duration := some 1 }, none) := by
  refine ⟨?_, ?_, ?_, ?_⟩ <;>
    simp [Timer.set_fps, Timer.set_max_duration, hv]

/-- Claim C4, witness: setting 1/2 on a fresh timer fails both setters
without mutation; setting 1 succeeds. -/
theorem timer_setter_range_validation_witness :
    Timer.set_fps Timer.init (some (1/2)) =
      (Timer.init, some "fps needs to be greater than 1.0") ∧
    Timer.set_max_duration Timer.init (some (1/2)) =
      (Timer.init, some "max_duration needs to be greater than 1.0") ∧
    Timer.set_fps Timer.init (some 1) =
      ({ Timer.init with fps := some 1 }, none) ∧
    Timer.set_max_duration Timer.init (some 1) =
      ({ Timer.init with max_duration := some 1 }, none) :=
  timer_setter_range_validation Timer.init (1/2) (by norm_num)

/-- Claim C6: `pause` on a `RUNNING` timer appends the live interval,
zeroes the live counter and sets `PAUSED` — preserving `time` whenever the
live counter was fresh; on a `PAUSED` timer it records a new interval
start and sets `RUNNING`; on a `STOPPED` timer it changes nothing. -/
theorem timer_pause_transitions (t : Timer) (now : ℚ) :
    (t.status = RUNNING →
      (t.pause now).status = PAUSED ∧
      (t.pause now).previous_intervals
        = t.previous_intervals ++ [now - t.interval_start] ∧
      (t.pause now).current_interval_duration = 0 ∧
      (t.current_interval_duration = now - t.interval_start →
        (t.pause now).time = t.time)) ∧
    (t.status = PAUSED →
      (t.pause now).status = RUNNING ∧
      (t.pause now).interval_start = now ∧
      (t.pause now).previous_intervals = t.previous_intervals ∧
      (t.pause now).current_interval_duration = t.current_interval_duration ∧
      (t.pause now).time = t.time) ∧
    (t.status = STOPPED → t.pause now = t) := by
  refine ⟨fun hR => ?_, fun hP => ?_, fun hS => ?_⟩
  · have hp : t.pause now =
        { t with status := PAUSED,
                 previous_intervals :=
                   t.previous_intervals ++ [now - t.interval_start],
                 current_interval_duration := 0 } := by
      unfold Timer.pause
      rw [hR]
      simp
    refine ⟨by rw [hp], by rw [hp], by rw [hp], fun hfresh => ?_⟩
    rw [hp]
    simp only [Timer.time, List.sum_append, List.sum_cons, List.sum_nil]
    rw [hfresh]
    ring
  · have hne : ¬ t.status = RUNNING := by rw [hP]; decide
    have hp : t.pause now =
        { t with interval_start := now, status := RUNNING } := by
      unfold Timer.pause
      rw [if_neg hne, if_pos hP]
    exact ⟨by rw [hp], by rw [hp], by rw [hp], by rw [hp], by rw [hp]; rfl⟩
  · have h1 : ¬ t.status = RUNNING := by rw [hS]; decide
    have h2 : ¬ t.status = PAUSED := by rw [hS]; decide
    unfold Timer.pause
    rw [if_neg h1, if_neg h2]

/-- Claim C6, witness: pausing a concrete running timer with a fresh live
counter keeps `time` at 3 while moving to `PAUSED`; pausing the result
resumes to `RUNNING`; a stopped timer is untouched. -/
theorem timer_pause_transitions_witness :
    (pausableTimer.pause 5).status = PAUSED ∧
    (pausableTimer.pause 5).time = pausableTimer.time ∧
    ((pausableTimer.pause 5).pause 7).status = RUNNING ∧
    ((pausableTimer.pause 5).pause 7).interval_start = 7 ∧
    (pausableTimer.stop.pause 9) = pausableTimer.stop := by
  have h1 := timer_pause_transitions pausableTimer 5
  have h2 := timer_pause_transitions (pausableTimer.pause 5) 7
  have h3 := timer_pause_transitions pausableTimer.stop 9
  have hfresh : pausableTimer.current_interval_duration
      = 5 - pausableTimer.interval_start := by
    show (2 : ℚ) = 5 - 3
    norm_num
  exact ⟨(h1.1 rfl).1, (h1.1 rfl).2.2.2 hfresh,
    (h2.2.1 (h1.1 rfl).1).1, (h2.2.1 (h1.1 rfl).1).2.1,
    h3.2.2 rfl⟩

/-- Claim C8: `load_video` on a path the file system does not recognise
raises the not-found error and returns with every observable field of the
player — status, clip, duration, fps, audioformat — exactly as before. -/
theorem load_missing_file (p : Player) (f : String) (pa : Bool)
    (isfile : String → Bool) (openClip : String → Clip)
    (hf : isfile f = false) :
    p.load_video (some f) pa isfile openClip
      = (p, .error ("File not found: " ++ f)) ∧
    (p.load_video (some f) pa isfile openClip).1.status = p.status ∧
    (p.load_video (some f) pa isfile openClip).1.clip = p.clip ∧
    (p.load_video (some f) pa isfile openClip).1.duration = p.duration ∧
    (p.load_video (some f) pa isfile openClip).1.fps = p.fps ∧
    (p.load_video (some f) pa isfile openClip).1.audioformat = p.audioformat := by
  refine ⟨?_, ?_, ?_, ?_, ?_, ?_⟩ <;>
    simp [Player.load_video, hf]

/-- Claim C8, witness: loading "missing.mp4" on the fresh player with an
always-failing file check raises not-found and keeps it `UNINITIALIZED`
with no clip. -/
theorem load_missing_file_witness :
    Player.load_video Player.initial (some "missing.mp4") true
        (fun _ => false) (fun _ => noAudioClip)
      = (Player.initial, .error ("File not found: " ++ "missing.mp4")) ∧
    (Player.load_video Player.initial (some "missing.mp4") true
        (fun _ => false) (fun _ => noAudioClip)).1.status = UNINITIALIZED := by
  have h := load_missing_file Player.initial "missing.mp4" true
    (fun _ => false) (fun _ => noAudioClip) rfl
  exact ⟨h.1, h.2.1⟩

/-- Claim C10: `Player.stop` unconditionally sets `READY` and
stops/resets the clock from every state, so `READY` does not imply a
loaded source — and indeed `play()` on the stopped fresh player (READY,
no clip) still raises, because it checks `clip` as well as the status. -/
theorem stop_forces_ready :
    (∀ p : Player,
      p.stop.status = READY ∧ p.stop.clock.status = STOPPED ∧
      p.stop.clock.time = 0 ∧ p.stop.clip = p.clip) ∧
    Player.initial.stop.status = READY ∧
    Player.initial.stop.clip = none ∧
    Player.initial.stop.play false
      = (Player.initial.stop, .raised "Player uninitialized or no file loaded") := by
  refine ⟨fun p => ⟨rfl, rfl, ?_, rfl⟩, rfl, rfl, by decide⟩
  simp [Player.stop, Timer.stop, Timer.reset, Timer.time]

/-- Claim C5: `play()` raises when the player is `UNINITIALIZED` or has no
clip; it is a state-preserving no-op when the status is `EOS`, `PLAYING`
or `PAUSED`; and only from `READY` (with a clip, no stale render thread,
and the clock's fps configured, as a successful load guarantees) does it
set the status to `PLAYING` and report the pacing threads as started. -/
theorem play_state_guards (p : Player) (alive : Bool) :
    (p.status = UNINITIALIZED ∨ p.clip = none →
      p.play alive = (p, .raised "Player uninitialized or no file loaded")) ∧
    (p.status = EOS → ¬ p.clip = none →
      p.play alive = (p, .eosNoop)) ∧
    (p.status = PLAYING ∨ p.status = PAUSED → ¬ p.clip = none →
      p.play alive = (p, .alreadyPlayingNoop)) ∧
    (p.status = READY → ¬ p.clip = none → alive = false →
      ∀ f : ℚ, p.clock.fps = some f → ¬ f = 0 →
        (p.play alive).1.status = PLAYING ∧
        (p.play alive).2 = .started p.audioformat.isSome) := by
  refine ⟨fun h => ?_, fun hE hclip => ?_, fun hPP hclip => ?_,
    fun hR hclip halive f hf hf0 => ?_⟩
  · unfold Player.play
    rw [if_pos h]
  · have g1 : ¬ (p.status = UNINITIALIZED ∨ p.clip = none) := by
      rintro (h | h)
      · rw [hE] at h; exact absurd h (by decide)
      · exact hclip h
    unfold Player.play
    rw [if_neg g1, if_pos hE]
  · have g1 : ¬ (p.status = UNINITIALIZED ∨ p.clip = none) := by
      rintro (h | h)
      · rcases hPP with hPl | hPa
        · rw [hPl] at h; exact absurd h (by decide)
        · rw [hPa] at h; exact absurd h (by decide)
      · exact hclip h
    have g2 : ¬ p.status = EOS := by
      rcases hPP with hPl | hPa
      · rw [hPl]; decide
      · rw [hPa]; decide
    unfold Player.play
    rw [if_neg g1, if_neg g2, if_pos hPP]
  · have g1 : ¬ (p.status = UNINITIALIZED ∨ p.clip = none) := by
      rintro (h | h)
      · rw [hR] at h; exact absurd h (by decide)
      · exact hclip h
    have g2 : ¬ p.status = EOS := by rw [hR]; decide
    have g3 : ¬ (p.status = PLAYING ∨ p.status = PAUSED) := by
      rw [hR]; decide
    by_cases ha : p.audioformat.isSome <;>
      simp [Player.play, g1, g2, g3, hR, hclip, Timer.frame_interval, hf,
        hf0, halive, ha, UNINITIALIZED, READY, PAUSED, PLAYING, EOS]

/-- Claim C5, witness: the concrete loaded video-only player starts from
`READY`; the same player while `PLAYING` is a no-op; the fresh player
raises. -/
theorem play_state_guards_witness :
    (readyVideoOnlyPlayer.play false).1.status = PLAYING ∧
    (readyVideoOnlyPlayer.play false).2
      = .started readyVideoOnlyPlayer.audioformat.isSome ∧
    videoOnlyPlaying.play false = (videoOnlyPlaying, .alreadyPlayingNoop) ∧
    Player.initial.play false
      = (Player.initial, .raised "Player uninitialized or no file loaded") := by
  have h1 := play_state_guards readyVideoOnlyPlayer false
  have h2 := play_state_guards videoOnlyPlaying false
  have h3 := play_state_guards Player.initial false
  have hstart := h1.2.2.2 rfl (by decide) rfl 25 rfl (by norm_num)
  exact ⟨hstart.1, hstart.2,
    h2.2.2.1 (Or.inl rfl) (by decide),
    h3.1 (Or.inl rfl)⟩

/-- Helper for claim C7: whenever the path check passes, `load_video`
stores `audioformat = some …` exactly when audio was requested and the
opened clip has an audio track — the assignment happens before the
clock setters, so it holds on every continuation of the load. -/
theorem load_audioformat (p : Player) (f : String) (pa : Bool)
    (isfile : String → Bool) (openClip : String → Clip)
    (hfile : isfile f = true) :
    (p.load_video (some f) pa isfile openClip).1.audioformat.isSome
      = (pa && (openClip f).audio.isSome) := by
  unfold Player.load_video
  cases pa <;> cases ha : (openClip f).audio <;>
    simp only [hfile, if_true, ha] <;>
    (try split) <;> (try split) <;> simp

/-- Claim C7: after a successful `load_video`, `audioformat` is set iff
audio was requested and the clip has an audio track; and `play()` reports
the audio-pacing thread started iff `audioformat` is set. -/
theorem audioformat_governs_audio_thread (p q : Player) (f : String)
    (pa : Bool) (isfile : String → Bool) (openClip : String → Clip)
    (alive : Bool) (b : Bool) :
    ((p.load_video (some f) pa isfile openClip).2 = .ok true →
      ((p.load_video (some f) pa isfile openClip).1.audioformat.isSome = true
        ↔ (pa = true ∧ (openClip f).audio.isSome = true))) ∧
    ((q.play alive).2 = .started b →
      (b = true ↔ q.audioformat.isSome = true)) := by
  constructor
  · intro hok
    by_cases hfile : isfile f = true
    · rw [load_audioformat p f pa isfile openClip hfile]
      simp
    · rw [Bool.not_eq_true] at hfile
      unfold Player.load_video at hok
      simp [hfile] at hok
  · intro hb
    unfold Player.play at hb
    by_cases g1 : q.status = UNINITIALIZED ∨ q.clip = none
    · rw [if_pos g1] at hb; exact absurd hb (by simp)
    by_cases g2 : q.status = EOS
    · rw [if_neg g1, if_pos g2] at hb; exact absurd hb (by simp)
    by_cases g3 : q.status = PLAYING ∨ q.status = PAUSED
    · rw [if_neg g1, if_neg g2, if_pos g3] at hb; exact absurd hb (by simp)
    rw [if_neg g1, if_neg g2, if_neg g3] at hb
    by_cases hready : q.status = READY
    · rw [if_pos hready] at hb
      simp only [] at hb
      cases hfi : Timer.frame_interval q.clock with
      | error msg => rw [hfi] at hb; exact absurd hb (by simp)
      | ok fi =>
        rw [hfi] at hb
        cases alive
        · cases haf : q.audioformat.isSome <;> simp [haf] at hb <;>
            simp [haf, ← hb]
        · exact absurd hb (by simp)
    · rw [if_neg hready] at hb
      simp only [] at hb
      cases hfi : Timer.frame_interval q.clock with
      | error msg => rw [hfi] at hb; exact absurd hb (by simp)
      | ok fi =>
        rw [hfi] at hb
        cases alive
        · cases haf : q.audioformat.isSome <;> simp [haf] at hb <;>
            simp [haf, ← hb]
        · exact absurd hb (by simp)

/-- Claim C7, witness: loading a clip with a stereo audio track (audio
requested) yields a set `audioformat`; the loaded video-only player's
`audioformat` is absent. -/
theorem audioformat_governs_audio_thread_witness :
    (Player.initial.load_video (some "video.mp4") true (fun _ => true)
      (fun _ => stereoClip)).1.audioformat.isSome = true ∧
    readyVideoOnlyPlayer.audioformat.isSome = false := by
  have h := audioformat_governs_audio_thread Player.initial
    readyVideoOnlyPlayer "video.mp4" true (fun _ => true)
    (fun _ => stereoClip) false false
  exact ⟨(h.1 rfl).mpr ⟨rfl, rfl⟩, rfl⟩

/-- Claim C2: `play()` on the loaded video-only player (no audio stream,
so `audioformat = none`) starts no audio-pacing thread and leaves
`new_audioframe_available` uncreated — and precisely because of that, the
first render-loop iteration in which the frame index advances raises an
`AttributeError` at `self.new_audioframe_available.set()`, as does the
loop epilogue; the video-pacing cycle cannot complete a frame-production
step normally. -/
theorem video_only_render_crashes :
    (readyVideoOnlyPlayer.play false).2 = .started false ∧
    videoOnlyPlaying.new_audioframe_available = none ∧
    videoOnlyPlaying.status = PLAYING ∧
    videoOnlyAdvanced.audioformat = none ∧
    videoOnlyAdvanced.renderStep
      = .error "AttributeError: Player object has no attribute new_audioframe_available" ∧
    videoOnlyAdvanced.renderExit
      = .error "AttributeError: Player object has no attribute new_audioframe_available" := by
  refine ⟨rfl, rfl, rfl, rfl, ?_, rfl⟩
  have hfps : videoOnlyAdvanced.clock.fps = some 25 := rfl
  have htime : videoOnlyAdvanced.clock.time = 1 / 10 := by
    show ([] : List ℚ).sum + ((1 : ℚ) / 10 - 0) = 1 / 10
    norm_num
  have hframe : videoOnlyAdvanced.clock.current_frame = .ok 2 := by
    unfold Timer.current_frame
    rw [hfps, htime]
    norm_num [pyint]
  have hfi : videoOnlyAdvanced.clock.frame_interval = .ok (1 / 25) := by
    unfold Timer.frame_interval
    rw [hfps]
    norm_num
  have hdur : videoOnlyAdvanced.duration = some 10 := rfl
  have hlf : videoOnlyAdvanced.last_frame_no = 0 := rfl
  have hev : videoOnlyAdvanced.new_audioframe_available = none := rfl
  unfold Player.renderStep
  rw [hframe, hdur, hlf, hev, hfi, htime]
  norm_num [eventSet]

/-! ### Shutdown model of the two pacing threads (claim C9)

An interleaving model of the video-pacing thread (`Player.__render`,
lines 333-357) and the audio-pacing thread (`Player.__audiorender_thread`,
lines 372-399) around the shared state they communicate through: the
player's `status` field and the `new_audioframe_available` event flag.
`stop()` is modelled as the precondition that `status` has left
`{PLAYING, PAUSED}` (it writes `READY`; the only in-model status write,
`vEos`, writes `EOS`, so the condition is stable). -/

/-- Position of the video-pacing thread: at the `while` head (`vloop`),
between leaving the loop and the final `new_audioframe_available.set()`
(`vexiting`, covering `clock.stop()`), or exited (`vdone`). -/
inductive VPc
  | vloop
  | vexiting
  | vdone
deriving DecidableEq, Repr

/-- Position of the audio-pacing thread: at the `while` head plus the
chunk computation (`acheck`), blocked in `wait()` (`aWait`), about to
`clear()` (`aclear`), at the status re-check plus render callback
(`apost`), or exited (`adone`). -/
inductive APc
  | acheck
  | aWait
  | aclear
  | apost
  | adone
deriving DecidableEq, Repr

/-- Joint state of the two threads and their shared variables. -/
structure JState where
  status : Nat
  event : Bool
  vpc : VPc
  apc : APc
deriving DecidableEq, Repr

/-- One interleaved step of either thread.  The video loop body is
abstracted to: exit when the status check fails (`vExit`), produce a frame
and signal the event (`vFrame`), poll without a new frame (`vNoFrame`), or
hit end-of-clip, set `EOS` and break (`vEos`); after the loop the thread
performs the final `set()` and exits (`vFinalSet`).  The audio loop:
exit when the status check fails (`aCheckExit`), otherwise compute the
chunk and reach `wait()` (`aCheckEnter`), return from `wait()` only when
the event is set (`aWaitReturn`), `clear()` it (`aClear`), then re-check
status/render and come back around (`aPost`). -/
inductive JStep : JState → JState → Prop
  | vExit (s : JState) (h : s.vpc = .vloop)
      (hs : ¬ (s.status = PLAYING ∨ s.status = PAUSED)) :
      JStep s { s with vpc := .vexiting }
  | vFrame (s : JState) (h : s.vpc = .vloop)
      (hs : s.status = PLAYING ∨ s.status = PAUSED) :
      JStep s { s with event := true }
  | vNoFrame (s : JState) (h : s.vpc = .vloop)
      (hs : s.status = PLAYING ∨ s.status = PAUSED) :
      JStep s s
  | vEos (s : JState) (h : s.vpc = .vloop)
      (hs : s.status = PLAYING ∨ s.status = PAUSED) :
      JStep s { s with status := EOS, vpc := .vexiting }
  | vFinalSet (s : JState) (h : s.vpc = .vexiting) :
      JStep s { s with event := true, vpc := .vdone }
  | aCheckExit (s : JState) (h : s.apc = .acheck)
      (hs : ¬ (s.status = PLAYING ∨ s.status = PAUSED)) :
      JStep s { s with apc := .adone }
  | aCheckEnter (s : JState) (h : s.apc = .acheck)
      (hs : s.status = PLAYING ∨ s.status = PAUSED) :
      JStep s { s with apc := .aWait }
  | aWaitReturn (s : JState) (h : s.apc = .aWait) (he : s.event = true) :
      JStep s { s with apc := .aclear }
  | aClear (s : JState) (h : s.apc = .aclear) :
      JStep s { s with event := false, apc := .apost }
  | aPost (s : JState) (h : s.apc = .apost) :
      JStep s { s with apc := .acheck }

/-- `StepsN n s t`: `t` is reachable from `s` in exactly `n` steps. -/
inductive StepsN : ℕ → JState → JState → Prop
  | refl (s : JState) : StepsN 0 s s
  | tail {n : ℕ} {s t u : JState} (h : StepsN n s t) (hstep : JStep t u) :
      StepsN (n + 1) s u

/-- Audio-thread positions at which the event flag may have been consumed
without the audio thread needing it again before re-checking `status`. -/
def uncleared (a : APc) : Prop :=
  a = .aclear ∨ a = .apost ∨ a = .acheck ∨ a = .adone

/-- Inductive invariant: once the video thread has left its loop the
status is out of `{PLAYING, PAUSED}` for good, and once it has exited
(which only happens through the final `set()`), either the event is still
set or the audio thread is already past its `wait()`. -/
def JInv (s : JState) : Prop :=
  (s.vpc ≠ .vloop → ¬ (s.status = PLAYING ∨ s.status = PAUSED)) ∧
  (s.vpc = .vdone → s.event = true ∨ uncleared s.apc)

def vrank : VPc → ℕ
  | .vloop => 2
  | .vexiting => 1
  | .vdone => 0

def arank : APc → ℕ
  | .aWait => 4
  | .aclear => 3
  | .apost => 2
  | .acheck => 1
  | .adone => 0

/-- Joint termination measure once `status` has left `{PLAYING, PAUSED}`. -/
def rank (s : JState) : ℕ := vrank s.vpc + arank s.apc

/-- Every step preserves the invariant `JInv`. -/
theorem jstep_preserves_inv {s t : JState} (hs : JInv s) (h : JStep s t) :
    JInv t := by
  obtain ⟨h1, h2⟩ := hs
  cases h with
  | vExit hv hstat =>
    exact ⟨fun _ => hstat, fun hd => nomatch hd⟩
  | vFrame hv hstat =>
    exact ⟨h1, fun _ => Or.inl rfl⟩
  | vNoFrame hv hstat =>
    exact ⟨h1, h2⟩
  | vEos hv hstat =>
    refine ⟨fun _ => ?_, fun hd => nomatch hd⟩
    show ¬ (EOS = PLAYING ∨ EOS = PAUSED)
    decide
  | vFinalSet hv =>
    refine ⟨fun _ => h1 ?_, fun _ => Or.inl rfl⟩
    rw [hv]
    exact fun hl => nomatch hl
  | aCheckExit ha hstat =>
    refine ⟨h1, fun _ => ?_⟩
    show JState.event _ = true ∨ uncleared APc.adone
    simp [uncleared]
  | aCheckEnter ha hstat =>
    refine ⟨h1, fun hd => absurd hstat (h1 fun hl => ?_)⟩
    rw [hl] at hd
    exact nomatch hd
  | aWaitReturn ha he =>
    exact ⟨h1, fun _ => Or.inl he⟩
  | aClear ha =>
    refine ⟨h1, fun _ => ?_⟩
    show JState.event _ = true ∨ uncleared APc.apost
    simp [uncleared]
  | aPost ha =>
    refine ⟨h1, fun _ => ?_⟩
    show JState.event _ = true ∨ uncleared APc.acheck
    simp [uncleared]

/-- No step brings the status back into `{PLAYING, PAUSED}`: `stop()`'s
effect is stable (the only in-model status write is `vEos`, to `EOS`). -/
theorem jstep_preserves_stopped {s t : JState}
    (hstop : ¬ (s.status = PLAYING ∨ s.status = PAUSED)) (h : JStep s t) :
    ¬ (t.status = PLAYING ∨ t.status = PAUSED) := by
  cases h with
  | vExit hv hstat => exact hstop
  | vFrame hv hstat => exact absurd hstat hstop
  | vNoFrame hv hstat => exact absurd hstat hstop
  | vEos hv hstat => exact absurd hstat hstop
  | vFinalSet hv => exact hstop
  | aCheckExit ha hstat => exact hstop
  | aCheckEnter ha hstat => exact absurd hstat hstop
  | aWaitReturn ha he => exact hstop
  | aClear ha => exact hstop
  | aPost ha => exact hstop

/-- Once the status is out of `{PLAYING, PAUSED}`, every enabled step
strictly decreases the joint measure `rank`. -/
theorem jstep_rank_decreases {s t : JState}
    (hstop : ¬ (s.status = PLAYING ∨ s.status = PAUSED)) (h : JStep s t) :
    rank t < rank s := by
  cases h with
  | vExit hv hstat =>
    simp only [rank, vrank, hv]
    omega
  | vFrame hv hstat => exact absurd hstat hstop
  | vNoFrame hv hstat => exact absurd hstat hstop
  | vEos hv hstat => exact absurd hstat hstop
  | vFinalSet hv =>
    simp only [rank, vrank, hv]
    omega
  | aCheckExit ha hstat =>
    simp only [rank, arank, ha]
    omega
  | aCheckEnter ha hstat => exact absurd hstat hstop
  | aWaitReturn ha he =>
    simp only [rank, arank, ha]
    omega
  | aClear ha =>
    simp only [rank, arank, ha]
    omega
  | aPost ha =>
    simp only [rank, arank, ha]
    omega

/-- Progress: while the two threads are not both done, some step is
enabled — in particular the audio thread is never stuck at `wait()`,
because once the video thread is done the invariant guarantees the event
is set. -/
theorem jprogress {s : JState} (hInv : JInv s)
    (hstop : ¬ (s.status = PLAYING ∨ s.status = PAUSED))
    (hnd : ¬ (s.vpc = .vdone ∧ s.apc = .adone)) :
    ∃ t, JStep s t := by
  obtain ⟨h1, h2⟩ := hInv
  cases hv : s.vpc with
  | vloop => exact ⟨_, .vExit s hv hstop⟩
  | vexiting => exact ⟨_, .vFinalSet s hv⟩
  | vdone =>
    cases ha : s.apc with
    | acheck => exact ⟨_, .aCheckExit s ha hstop⟩
    | aWait =>
      rcases h2 hv with he | hu
      · exact ⟨_, .aWaitReturn s ha he⟩
      · rcases hu with h | h | h | h <;> rw [ha] at h <;> exact nomatch h
    | aclear => exact ⟨_, .aClear s ha⟩
    | apost => exact ⟨_, .aPost s ha⟩
    | adone => exact absurd ⟨hv, ha⟩ hnd

/-- Along any run from a state satisfying the invariant with the status
out of `{PLAYING, PAUSED}`, the invariant and the stopped status persist
and the measure pays for every step taken. -/
theorem stepsN_inv {n : ℕ} {s s' : JState} (h : StepsN n s s')
    (hInv : JInv s) (hstop : ¬ (s.status = PLAYING ∨ s.status = PAUSED)) :
    JInv s' ∧ ¬ (s'.status = PLAYING ∨ s'.status = PAUSED) ∧
    n + rank s' ≤ rank s := by
  induction h with
  | refl s => exact ⟨hInv, hstop, by omega⟩
  | tail h hstep ih =>
    obtain ⟨hi, hs, hr⟩ := ih hInv hstop
    have hd := jstep_rank_decreases hs hstep
    exact ⟨jstep_preserves_inv hi hstep, jstep_preserves_stopped hs hstep,
      by omega⟩

/-- Claim C9: from any joint state of the two pacing threads satisfying
the structural invariant in which the status has left `{PLAYING, PAUSED}`
(the postcondition of `stop()`), every interleaved run takes at most
`rank s ≤ 6` further steps, and a run that can make no further step has
both threads exited — the video thread terminates, and the audio thread
is never blocked forever on `new_audioframe_available`, because the video
cycle's final `set()` on exit unblocks it. -/
theorem stop_shutdown_terminates (s : JState) (hInv : JInv s)
    (hstop : ¬ (s.status = PLAYING ∨ s.status = PAUSED)) :
    rank s ≤ 6 ∧
    ∀ n s', StepsN n s s' →
      n + rank s' ≤ rank s ∧
      ((¬ ∃ u, JStep s' u) → s'.vpc = .vdone ∧ s'.apc = .adone) := by
  constructor
  · have hv : vrank s.vpc ≤ 2 := by cases s.vpc <;> simp [vrank]
    have ha : arank s.apc ≤ 4 := by cases s.apc <;> simp [arank]
    simp only [rank]
    omega
  · intro n s' hsteps
    obtain ⟨hi, hs, hr⟩ := stepsN_inv hsteps hInv hstop
    refine ⟨hr, fun hstuck => ?_⟩
    by_contra hnd
    exact hstuck (jprogress hi hs hnd)

/-- The joint state right after `stop()` in the ordinary playback
configuration: both threads inside their loops, event clear. -/
def stoppedState : JState :=
  { status := READY, event := false, vpc := .vloop, apc := .aWait }

/-- Claim C9, witness: from the concrete post-`stop()` state with the
audio thread blocked in `wait()` and the video thread still looping, the
run bound holds and the conclusion applies at the empty run. -/
theorem stop_shutdown_terminates_witness :
    rank stoppedState ≤ 6 ∧
    0 + rank stoppedState ≤ rank stoppedState := by
  have h := stop_shutdown_terminates stoppedState
    (by constructor
        · intro hl
          exact absurd rfl hl
        · intro hd
          exact nomatch hd)
    (by decide)
  exact ⟨h.1, (h.2 0 stoppedState (.refl stoppedState)).1⟩

end MediaPlayer
